import Mathlib

/-!
Shallow embedding of `src/packages/relayer/src/relayer.ts` (the `Relayer`
class of pocket-js): relay construction, proof generation, session-node
selection and membership checking.

Modelling conventions:
- JS numbers that the code only ever uses as non-negative integers
  (entropy, block heights, array indices) are modelled as `Nat`.
- JS strings are Lean `String`s; `js-sha3`'s `update` consumes the UTF-8
  bytes of the string, modelled via `String.toUTF8`.
- The ambient random draws (`Math.floor(Math.random() * 100)` for node
  selection, `Math.floor(Math.random() * 99999999999999)` for entropy)
  are passed in as explicit `Nat` parameters.
- The signing collaborator (`keyManager.sign`) is an explicit function
  parameter `String → String`; a missing key manager is `none`.
- The transport collaborator (`provider.relay`) is external: the static
  `relay` is modelled up to the dispatch point, returning the assembled
  `RelayRequest` together with the target service URL on success. An
  error result means nothing was handed to the transport.
- Thrown `Error`s are modelled by `Except` with the inductive
  `RelayError`; `RelayError.message` records the exact thrown strings.
-/

namespace PocketJS

/-! ## SHA3-256 (the `js-sha3` dependency), Keccak-f[1600] over `Nat` -/

/-- The lane modulus of Keccak-f[1600], 2^64. -/
def U64 : Nat := 18446744073709551616

/-- Rotate a 64-bit lane (a `Nat` below `U64`) left by `n` bits. -/
def rotl64 (x n : Nat) : Nat :=
  ((x <<< n) % U64) ||| (x >>> (64 - n))

/-- Read lane `i` of a 25-lane state (index `x + 5*y`). -/
def lane (s : List Nat) (i : Nat) : Nat := s.getD i 0

/-- Keccak θ step. -/
def theta (s : List Nat) : List Nat :=
  let c := (List.range 5).map fun x =>
    lane s x ^^^ lane s (x + 5) ^^^ lane s (x + 10) ^^^ lane s (x + 15) ^^^ lane s (x + 20)
  let d := (List.range 5).map fun x =>
    lane c ((x + 4) % 5) ^^^ rotl64 (lane c ((x + 1) % 5)) 1
  (List.range 25).map fun i => lane s i ^^^ lane d (i % 5)

/-- Keccak ρ rotation offsets, indexed by `x + 5*y`, written row by row
(rows `y = 0` through `y = 4`). -/
def rhoOffsets : List Nat :=
  [0, 1, 62, 28, 27] ++
    [36, 44, 6, 55, 20] ++
    [3, 10, 43, 25, 39] ++
    [41, 45, 15, 21, 8] ++
    [18, 2, 61, 56, 14]

/-- Keccak ρ and π steps combined: output lane `X + 5*Y` comes from input
lane `(X + 3*Y) % 5 + 5*X` rotated by its ρ offset. -/
def rhoPi (s : List Nat) : List Nat :=
  (List.range 25).map fun j =>
    let bx := j % 5
    let yy := j / 5
    let src := (bx + 3 * yy) % 5 + 5 * bx
    rotl64 (lane s src) (lane rhoOffsets src)

/-- Keccak χ step. -/
def chi (b : List Nat) : List Nat :=
  (List.range 25).map fun j =>
    let x := j % 5
    let row := j - x
    lane b j ^^^ (((U64 - 1) ^^^ lane b (row + (x + 1) % 5)) &&& lane b (row + (x + 2) % 5))

/-- The 24 ι-step constants of Keccak-f[1600], in decimal. -/
def iotaRCs : List Nat :=
  [1, 32898, 9223372036854808714,
   9223372039002292224, 32907, 2147483649,
   9223372039002292353, 9223372036854808585, 138,
   136, 2147516425, 2147483658,
   2147516555, 9223372036854775947, 9223372036854808713,
   9223372036854808579, 9223372036854808578, 9223372036854775936,
   32778, 9223372039002259466, 9223372039002292353,
   9223372036854808704, 2147483649, 9223372039002292232]

/-- One Keccak round: θ, ρ, π, χ, ι. -/
def keccakRound (s : List Nat) (rc : Nat) : List Nat :=
  match chi (rhoPi (theta s)) with
  | [] => []
  | a :: rest => (a ^^^ rc) :: rest

/-- The Keccak-f[1600] permutation (24 rounds). -/
def keccakF (s : List Nat) : List Nat :=
  iotaRCs.foldl keccakRound s

/-- SHA3 pad10*1 with domain suffix `0x06`, rate 136 bytes (SHA3-256). -/
def sha3Pad (msg : List Nat) : List Nat :=
  let m := msg ++ [0x06]
  let padded := m ++ List.replicate ((136 - m.length % 136) % 136) 0
  padded.dropLast ++ [padded.getLastD 0 ^^^ 0x80]

/-- Interpret up to 8 bytes as a little-endian 64-bit lane. -/
def bytesToLane (bs : List Nat) : Nat :=
  bs.foldr (fun b acc => b + 256 * acc) 0

/-- Absorb one 136-byte block into the state and permute. -/
def absorbBlock (s block : List Nat) : List Nat :=
  keccakF ((List.range 25).map fun i =>
    lane s i ^^^ bytesToLane ((block.drop (8 * i)).take 8))

/-- Absorb a padded message, 136 bytes at a time. -/
def absorbAll (s msg : List Nat) : List Nat :=
  if msg = [] then s
  else absorbAll (absorbBlock s (msg.take 136)) (msg.drop 136)
termination_by msg.length
decreasing_by
  rename_i h
  have : msg.length ≠ 0 := fun hz => h (List.eq_nil_of_length_eq_zero hz)
  simp [List.length_drop]
  omega

/-- The 8 little-endian bytes of a 64-bit lane. -/
def laneToBytes (v : Nat) : List Nat :=
  (List.range 8).map fun i => (v >>> (8 * i)) % 256

/-- SHA3-256 digest (32 bytes) of a byte string. -/
def sha3Bytes (msg : List Nat) : List Nat :=
  let st := absorbAll (List.replicate 25 0) (sha3Pad msg)
  laneToBytes (lane st 0) ++ laneToBytes (lane st 1) ++
    laneToBytes (lane st 2) ++ laneToBytes (lane st 3)

/-- Lowercase hexadecimal digit for `n < 16`. -/
def hexChar (n : Nat) : Char :=
  if n < 10 then Char.ofNat (48 + n) else Char.ofNat (87 + n)

/-- Lowercase hex rendering of a byte list. -/
def bytesToHex (bs : List Nat) : List Char :=
  (bs.map fun b => [hexChar (b / 16), hexChar (b % 16)]).flatten

/-- The UTF-8 bytes of a string, as the `update` of `js-sha3` consumes them. -/
def strBytes (s : String) : List Nat :=
  s.toUTF8.toList.map UInt8.toNat

/-- Model of `sha3.sha3_256.create().update(s).hex()` of `js-sha3`: the lowercase
hex SHA3-256 digest of the UTF-8 bytes of `s`. -/
def sha3hex (s : String) : String :=
  String.mk (bytesToHex (sha3Bytes (strBytes s)))

/-! ## JSON serialization (`JSON.stringify` on the object shapes the code builds) -/

/-- Escaping done by `JSON.stringify` of a single character inside a string
literal: `"` and `\` get a backslash, the named control escapes are used
for backspace, tab, newline, form feed and carriage return, the other
control characters become `\u00XX`, everything else is untouched. -/
def escChar (c : Char) : List Char :=
  if c = '"' then ['\\', '"']
  else if c = '\\' then ['\\', '\\']
  else if c.toNat = 8 then ['\\', 'b']
  else if c.toNat = 9 then ['\\', 't']
  else if c.toNat = 10 then ['\\', 'n']
  else if c.toNat = 12 then ['\\', 'f']
  else if c.toNat = 13 then ['\\', 'r']
  else if c.toNat < 32 then ['\\', 'u', '0', '0', hexChar (c.toNat / 16), hexChar (c.toNat % 16)]
  else [c]

/-- Output of `JSON.stringify` on a string value. -/
def jsonStr (s : String) : String :=
  String.mk ('"' :: (s.data.map escChar).flatten ++ ['"'])

/-! ## Data model (from `@pokt-foundation/pocketjs-types` as used here) -/

/-- A service node; the code reads only `publicKey` and `serviceUrl`. -/
structure Node where
  publicKey : String
  serviceUrl : String
deriving Repr, DecidableEq

/-- The session header; the code reads only `sessionBlockHeight`. -/
structure SessionHeader where
  applicationPubKey : String
  chain : String
  sessionBlockHeight : Nat
deriving Repr, DecidableEq

/-- A session: header plus ordered node list. -/
structure Session where
  header : SessionHeader
  nodes : List Node
deriving Repr, DecidableEq

/-- An application authentication token. -/
structure PocketAAT where
  version : String
  applicationPublicKey : String
  clientPublicKey : String
  applicationSignature : String
deriving Repr, DecidableEq

/-- Relay headers: a JS `Record<string, string>` in insertion order, or
`null` (`none`). -/
abbrev RelayHeaders : Type := List (String × String)

/-- The relay payload object built at relayer.ts:99-104, field order
`data`, `method`, `path`, `headers`. -/
structure RelayPayload where
  data : String
  method : String
  path : String
  headers : Option RelayHeaders
deriving Repr, DecidableEq

/-- The relay meta object built at relayer.ts:106-108. -/
structure RelayMeta where
  block_height : Nat
deriving Repr, DecidableEq

/-- The request-hash input built at relayer.ts:110-113: the payload/meta
pair of the request. -/
structure RequestHash where
  payload : RelayPayload
  meta : RelayMeta
deriving Repr, DecidableEq

/-- The AAT summary embedded in a relay proof (relayer.ts:134-139). -/
structure AATSummary where
  version : String
  app_pub_key : String
  client_pub_key : String
  signature : String
deriving Repr, DecidableEq

/-- The relay proof assembled at relayer.ts:127-142. -/
structure RelayProof where
  entropy : Nat
  session_block_height : Nat
  servicer_pub_key : String
  blockchain : String
  aat : AATSummary
  signature : String
  request_hash : String
deriving Repr, DecidableEq

/-- The wire-level relay request assembled at relayer.ts:144-148. -/
structure RelayRequest where
  payload : RelayPayload
  meta : RelayMeta
  proof : RelayProof
deriving Repr, DecidableEq

/-- Output of `JSON.stringify` on a headers value: `null` or an object with the
entries in insertion order. -/
def stringifyHeaders : Option RelayHeaders → String
  | none => "null"
  | some hs =>
    "\x7b" ++ String.intercalate "," (hs.map fun kv => jsonStr kv.1 ++ ":" ++ jsonStr kv.2) ++ "\x7d"

/-- Output of `JSON.stringify` on the relay payload object (insertion order
`data`, `method`, `path`, `headers`). -/
def stringifyPayload (p : RelayPayload) : String :=
  "\x7b\"data\":" ++ jsonStr p.data ++ ",\"method\":" ++ jsonStr p.method ++
    ",\"path\":" ++ jsonStr p.path ++ ",\"headers\":" ++ stringifyHeaders p.headers ++ "\x7d"

/-- Output of `JSON.stringify` on the relay meta object. -/
def stringifyMeta (m : RelayMeta) : String :=
  "\x7b\"block_height\":" ++ Nat.repr m.block_height ++ "\x7d"

/-- Output of `JSON.stringify` on the request-hash input (insertion order
`payload`, `meta`). -/
def stringifyRequestHash (rh : RequestHash) : String :=
  "\x7b\"payload\":" ++ stringifyPayload rh.payload ++ ",\"meta\":" ++ stringifyMeta rh.meta ++ "\x7d"

/-- Output of `JSON.stringify` on the token object built in `hashAAT`
(relayer.ts:241-246), insertion order `version`, `app_pub_key`,
`client_pub_key`, `signature`. -/
def stringifyToken (version appPubKey clientPubKey signature : String) : String :=
  "\x7b\"version\":" ++ jsonStr version ++ ",\"app_pub_key\":" ++ jsonStr appPubKey ++
    ",\"client_pub_key\":" ++ jsonStr clientPubKey ++ ",\"signature\":" ++ jsonStr signature ++ "\x7d"

/-- Output of `JSON.stringify` on the proof object built in `generateProofBytes`
(relayer.ts:224-232), insertion order `entropy`, `session_block_height`,
`servicer_pub_key`, `blockchain`, `signature`, `token`, `request_hash`. -/
def stringifyProof (entropy sessionBlockHeight : Nat)
    (servicerPubKey blockchain signature token requestHash : String) : String :=
  "\x7b\"entropy\":" ++ Nat.repr entropy ++
    ",\"session_block_height\":" ++ Nat.repr sessionBlockHeight ++
    ",\"servicer_pub_key\":" ++ jsonStr servicerPubKey ++
    ",\"blockchain\":" ++ jsonStr blockchain ++
    ",\"signature\":" ++ jsonStr signature ++
    ",\"token\":" ++ jsonStr token ++
    ",\"request_hash\":" ++ jsonStr requestHash ++ "\x7d"

/-! ## The errors thrown by `Relayer` -/

/-- The three `Error`s `Relayer.relay` can throw, named as in the taxonomy of the spec; `message` holds the exact strings thrown by the code. -/
inductive RelayError where
  | MissingSignerError
  | NoServiceNodeError
  | NodeNotInSessionError
deriving Repr, DecidableEq

/-- The exact message strings of relayer.ts:84, 90 and 94. -/
def RelayError.message : RelayError → String
  | .MissingSignerError => "You need a signer to send a relay"
  | .NoServiceNodeError => "Couldn't find a service node."
  | .NodeNotInSessionError => "Node is not in the current session"

namespace Relayer

/-- Model of `Relayer.hashRequest` (relayer.ts:252-256): SHA3-256 of the
JSON-serialized request-hash input. -/
def hashRequest (requestHash : RequestHash) : String :=
  sha3hex (stringifyRequestHash requestHash)

/-- Model of `Relayer.hashAAT` (relayer.ts:240-250): SHA3-256 of the token object
with field order `version`, `app_pub_key`, `client_pub_key`, `signature`,
the `signature` field set to the empty string. -/
def hashAAT (aat : PocketAAT) : String :=
  sha3hex (stringifyToken aat.version aat.applicationPublicKey aat.clientPublicKey "")

/-- Model of `Relayer.generateProofBytes` (relayer.ts:209-238): SHA3-256 of the
JSON-serialized proof object, whose `signature` field is the empty
string, `token` is `hashAAT` of the AAT and `request_hash` is
`hashRequest` of the request-hash input. -/
def generateProofBytes (entropy sessionBlockHeight : Nat)
    (servicerPublicKey blockchain : String) (pocketAAT : PocketAAT)
    (requestHash : RequestHash) : String :=
  sha3hex (stringifyProof entropy sessionBlockHeight servicerPublicKey blockchain
    "" (hashAAT pocketAAT) (hashRequest requestHash))

/-- Model of `Relayer.getRandomSessionNode` (relayer.ts:198-203). `draw` is the
injected value of `Math.floor(Math.random() * 100)`, so `draw < 100` in
any actual run. On an empty node list the JS code computes
`draw % 0 = NaN` and `session.nodes[NaN]` is `undefined` (`none`);
otherwise it returns the node at index `draw % session.nodes.length`. -/
def getRandomSessionNode (session : Session) (draw : Nat) : Option Node :=
  let nodesInSession := session.nodes.length
  if nodesInSession = 0 then none
  else session.nodes[draw % nodesInSession]?

/-- Model of `Relayer.isNodeInSession` (relayer.ts:205-207):
`Boolean(session.nodes.find((n) => n.publicKey === node.publicKey))`. -/
def isNodeInSession (session : Session) (node : Node) : Bool :=
  (session.nodes.find? fun n => n.publicKey == node.publicKey).isSome

/-- Resolution `node ?? Relayer.getRandomSessionNode(session)` (relayer.ts:87). -/
def resolveServiceNode (node : Option Node) (session : Session) (draw : Nat) : Option Node :=
  match node with
  | some n => some n
  | none => getRandomSessionNode session draw

/-- The static `Relayer.relay` (relayer.ts:60-158), modelled up to the
dispatch point: on success it returns the assembled `RelayRequest`
together with the service URL it would be dispatched to
(`provider.relay(relayRequest, serviceNode.serviceUrl.toString())`).
`sign` is the `sign` collaborator of the key manager (`none` when no key
manager is configured), `entropyDraw` the injected value of
`Math.floor(Math.random() * 99999999999999)` and `nodeDraw` the injected
draw of `getRandomSessionNode`. -/
def relay (blockchain data : String) (headers : Option RelayHeaders)
    (method : String) (node : Option Node) (path : String)
    (pocketAAT : PocketAAT) (session : Session)
    (sign : Option (String → String)) (entropyDraw nodeDraw : Nat) :
    Except RelayError (RelayRequest × String) :=
  match sign with
  | none => .error .MissingSignerError
  | some sign =>
    match resolveServiceNode node session nodeDraw with
    | none => .error .NoServiceNodeError
    | some serviceNode =>
      if !isNodeInSession session serviceNode then .error .NodeNotInSessionError
      else
        let relayPayload : RelayPayload := ⟨data, method, path, headers⟩
        let relayMeta : RelayMeta := ⟨session.header.sessionBlockHeight⟩
        let requestHash : RequestHash := ⟨relayPayload, relayMeta⟩
        let entropy := entropyDraw
        let proofBytes := generateProofBytes entropy session.header.sessionBlockHeight
          serviceNode.publicKey blockchain pocketAAT requestHash
        let signedProofBytes := sign proofBytes
        let relayProof : RelayProof :=
          ⟨entropy, session.header.sessionBlockHeight, serviceNode.publicKey, blockchain,
           ⟨pocketAAT.version, pocketAAT.applicationPublicKey, pocketAAT.clientPublicKey,
            pocketAAT.applicationSignature⟩,
           signedProofBytes, hashRequest requestHash⟩
        let relayRequest : RelayRequest := ⟨relayPayload, relayMeta, relayProof⟩
        .ok (relayRequest, serviceNode.serviceUrl)

end Relayer

/-- The `Relayer` instance state: its stored signing collaborator and
dispatcher list (the provider is the external transport). -/
structure RelayerInstance where
  keyManager : Option (String → String)
  dispatchers : List String

/-- The instance method `relay` (relayer.ts:160-196): checks its own
key manager, then delegates to the static `Relayer.relay` with its
stored collaborators and `node ?? undefined`. -/
def RelayerInstance.relay (r : RelayerInstance) (blockchain data : String)
    (headers : Option RelayHeaders) (method : String) (node : Option Node)
    (path : String) (pocketAAT : PocketAAT) (session : Session)
    (entropyDraw nodeDraw : Nat) : Except RelayError (RelayRequest × String) :=
  match r.keyManager with
  | none => .error .MissingSignerError
  | some sign =>
    Relayer.relay blockchain data headers method node path pocketAAT session
      (some sign) entropyDraw nodeDraw

/-! ## Concrete fixtures used by closed witness and counterexample theorems -/

/-- A concrete service node. -/
def nodeA : Node := ⟨"pk-a", "https://node-a.example"⟩

/-- A concrete service node. -/
def nodeB : Node := ⟨"pk-b", "https://node-b.example"⟩

/-- A concrete service node. -/
def nodeC : Node := ⟨"pk-c", "https://node-c.example"⟩

/-- A node sharing the public key of `nodeB` but carrying a different
service URL than the one recorded in the session. -/
def nodeBAlt : Node := ⟨"pk-b", "https://node-b-alt.example"⟩

/-- A node whose public key appears in no fixture session. -/
def nodeX : Node := ⟨"pk-x", "https://node-x.example"⟩

/-- A concrete session header. -/
def sampleHeader : SessionHeader := ⟨"app-pk", "0021", 42⟩

/-- A concrete session with three nodes. -/
def session3 : Session := ⟨sampleHeader, [nodeA, nodeB, nodeC]⟩

/-- A concrete AAT. -/
def sampleAAT : PocketAAT := ⟨"0.0.1", "app-pk", "client-pk", "aat-sig"⟩

/-- The same AAT as `sampleAAT` except for its application signature. -/
def sampleAAT2 : PocketAAT := ⟨"0.0.1", "app-pk", "client-pk", "other-sig"⟩

/-- The sixteen lowercase hexadecimal digits. -/
def hexDigits : List Char :=
  (List.range 16).map hexChar

/-! ## Helper lemmas -/

theorem hexChar_mem_hexDigits : ∀ n < 16, hexChar n ∈ hexDigits := by decide

theorem laneToBytes_lt (v : Nat) : ∀ b ∈ laneToBytes v, b < 256 := by
  intro b hb
  simp only [laneToBytes, List.mem_map] at hb
  obtain ⟨i, -, rfl⟩ := hb
  exact Nat.mod_lt _ (by norm_num)

theorem sha3Bytes_lt (m : List Nat) : ∀ b ∈ sha3Bytes m, b < 256 := by
  intro b hb
  simp only [sha3Bytes, List.mem_append] at hb
  rcases hb with ((h | h) | h) | h <;> exact laneToBytes_lt _ _ h

theorem bytesToHex_mem (bs : List Nat) (hbs : ∀ b ∈ bs, b < 256) :
    ∀ c ∈ bytesToHex bs, c ∈ hexDigits := by
  intro c hc
  simp only [bytesToHex, List.mem_flatten, List.mem_map] at hc
  obtain ⟨l, ⟨b, hb, rfl⟩, hcl⟩ := hc
  have hblt := hbs b hb
  simp only [List.mem_cons, List.mem_singleton, List.not_mem_nil, or_false] at hcl
  rcases hcl with rfl | rfl
  · exact hexChar_mem_hexDigits _ (Nat.div_lt_of_lt_mul (by omega))
  · exact hexChar_mem_hexDigits _ (Nat.mod_lt _ (by norm_num))

theorem sha3hex_mem_hexDigits (s : String) : ∀ c ∈ (sha3hex s).data, c ∈ hexDigits := by
  intro c hc
  exact bytesToHex_mem _ (sha3Bytes_lt _) c hc

theorem escChar_of_hexDigit : ∀ c ∈ hexDigits, escChar c = [c] := by
  decide

theorem flatten_map_singleton (l : List Char) : (l.map fun c => [c]).flatten = l := by
  induction l with
  | nil => rfl
  | cons hd tl ih => simpa using ih

theorem jsonStr_of_hex (s : String) (h : ∀ c ∈ s.data, c ∈ hexDigits) :
    jsonStr s = "\"" ++ s ++ "\"" := by
  unfold jsonStr
  have hmap : s.data.map escChar = s.data.map fun c => [c] :=
    List.map_congr_left fun c hc => escChar_of_hexDigit c (h c hc)
  rw [hmap, flatten_map_singleton]
  cases s with
  | mk d => rfl

theorem bytesToHex_length (l : List Nat) : (bytesToHex l).length = 2 * l.length := by
  unfold bytesToHex
  induction l with
  | nil => rfl
  | cons hd tl ih =>
    simp only [List.map_cons, List.flatten_cons, List.length_append, ih,
      List.length_cons, List.length_nil]
    omega

theorem sha3hex_length (s : String) : (sha3hex s).length = 64 := by
  have hb : (sha3Bytes (strBytes s)).length = 32 := by
    simp [sha3Bytes, laneToBytes]
  simp [sha3hex, String.length, bytesToHex_length, hb]

theorem isNodeInSession_iff (s : Session) (n : Node) :
    Relayer.isNodeInSession s n = true ↔ n.publicKey ∈ s.nodes.map Node.publicKey := by
  simp only [Relayer.isNodeInSession, List.find?_isSome, List.mem_map, beq_iff_eq]

/-! ## Claim theorems -/

/-- C1: every relay call that succeeds assembles a `RelayProof` whose
`request_hash` is the canonical digest (`hashRequest`) of the exact
payload/meta pair placed in the same `RelayRequest`, and the signed proof
bytes are computed by `generateProofBytes` from that same request-hash
input, so the digest hashed into the proof bytes and the one stored in the
assembled proof come from identical inputs. The theorem exhibits the full
successful output: for any resolved service node that passes the
membership check, `relay` returns the request whose `request_hash` field
is `hashRequest` of exactly its own payload/meta pair and whose signature
signs `generateProofBytes` applied to that same pair. -/
theorem relay_request_hash_consistent
    (bc data : String) (headers : Option RelayHeaders) (method path : String)
    (node : Option Node) (aat : PocketAAT) (session : Session)
    (sign : String → String) (ed nd : Nat) (sn : Node)
    (hres : Relayer.resolveServiceNode node session nd = some sn)
    (hmem : Relayer.isNodeInSession session sn = true) :
    Relayer.relay bc data headers method node path aat session (some sign) ed nd =
      .ok (⟨⟨data, method, path, headers⟩, ⟨session.header.sessionBlockHeight⟩,
        ⟨ed, session.header.sessionBlockHeight, sn.publicKey, bc,
         ⟨aat.version, aat.applicationPublicKey, aat.clientPublicKey, aat.applicationSignature⟩,
         sign (Relayer.generateProofBytes ed session.header.sessionBlockHeight sn.publicKey bc aat
           ⟨⟨data, method, path, headers⟩, ⟨session.header.sessionBlockHeight⟩⟩),
         Relayer.hashRequest ⟨⟨data, method, path, headers⟩,
           ⟨session.header.sessionBlockHeight⟩⟩⟩⟩,
        sn.serviceUrl) := by
  simp [Relayer.relay, hres, hmem]

theorem relay_request_hash_consistent_witness :
    Relayer.resolveServiceNode (some nodeB) session3 3 = some nodeB ∧
    Relayer.isNodeInSession session3 nodeB = true ∧
    Relayer.relay "0021" "d" none "" (some nodeB) "" sampleAAT session3
        (some (fun s => s)) 7 3 =
      .ok (⟨⟨"d", "", "", none⟩, ⟨session3.header.sessionBlockHeight⟩,
        ⟨7, session3.header.sessionBlockHeight, nodeB.publicKey, "0021",
         ⟨sampleAAT.version, sampleAAT.applicationPublicKey, sampleAAT.clientPublicKey,
          sampleAAT.applicationSignature⟩,
         (fun s => s) (Relayer.generateProofBytes 7 session3.header.sessionBlockHeight
           nodeB.publicKey "0021" sampleAAT
           ⟨⟨"d", "", "", none⟩, ⟨session3.header.sessionBlockHeight⟩⟩),
         Relayer.hashRequest ⟨⟨"d", "", "", none⟩,
           ⟨session3.header.sessionBlockHeight⟩⟩⟩⟩,
        nodeB.serviceUrl) :=
  ⟨rfl, by decide,
   relay_request_hash_consistent "0021" "d" none "" "" (some nodeB) sampleAAT session3
     (fun s => s) 7 3 nodeB rfl (by decide)⟩

/-- C2: `generateProofBytes` returns the canonical 256-bit lowercase hex
digest of the serialized object with fields in order `entropy`,
`session_block_height`, `servicer_pub_key`, `blockchain`, `signature`
(always the empty string at this stage), `token` (which is
`hashAAT(aat)`) and `request_hash` (which is `hashRequest` of the
request-hash input). The digest has 64 lowercase hex characters, i.e.
256 bits. -/
theorem generateProofBytes_canonical (e sbh : Nat) (spk bc : String)
    (aat : PocketAAT) (rh : RequestHash) :
    Relayer.generateProofBytes e sbh spk bc aat rh =
      sha3hex ("\x7b\"entropy\":" ++ Nat.repr e ++
        ",\"session_block_height\":" ++ Nat.repr sbh ++
        ",\"servicer_pub_key\":" ++ jsonStr spk ++
        ",\"blockchain\":" ++ jsonStr bc ++
        ",\"signature\":" ++ "\"\"" ++
        ",\"token\":" ++ ("\"" ++ Relayer.hashAAT aat ++ "\"") ++
        ",\"request_hash\":" ++ ("\"" ++ Relayer.hashRequest rh ++ "\"") ++ "\x7d") ∧
    (Relayer.generateProofBytes e sbh spk bc aat rh).length = 64 ∧
    ∀ c ∈ (Relayer.generateProofBytes e sbh spk bc aat rh).data, c ∈ hexDigits := by
  refine ⟨?_, sha3hex_length _, sha3hex_mem_hexDigits _⟩
  unfold Relayer.generateProofBytes stringifyProof
  rw [jsonStr_of_hex (Relayer.hashAAT aat) (sha3hex_mem_hexDigits _),
    jsonStr_of_hex (Relayer.hashRequest rh) (sha3hex_mem_hexDigits _)]
  rfl

theorem generateProofBytes_canonical_witness :
    Relayer.generateProofBytes 7 42 "pk-b" "0021" sampleAAT ⟨⟨"d", "", "", none⟩, ⟨42⟩⟩ =
      sha3hex ("\x7b\"entropy\":" ++ Nat.repr 7 ++
        ",\"session_block_height\":" ++ Nat.repr 42 ++
        ",\"servicer_pub_key\":" ++ jsonStr "pk-b" ++
        ",\"blockchain\":" ++ jsonStr "0021" ++
        ",\"signature\":" ++ "\"\"" ++
        ",\"token\":" ++ ("\"" ++ Relayer.hashAAT sampleAAT ++ "\"") ++
        ",\"request_hash\":" ++
          ("\"" ++ Relayer.hashRequest ⟨⟨"d", "", "", none⟩, ⟨42⟩⟩ ++ "\"") ++ "\x7d") ∧
    (Relayer.generateProofBytes 7 42 "pk-b" "0021" sampleAAT
      ⟨⟨"d", "", "", none⟩, ⟨42⟩⟩).length = 64 ∧
    ∀ c ∈ (Relayer.generateProofBytes 7 42 "pk-b" "0021" sampleAAT
      ⟨⟨"d", "", "", none⟩, ⟨42⟩⟩).data, c ∈ hexDigits :=
  generateProofBytes_canonical 7 42 "pk-b" "0021" sampleAAT ⟨⟨"d", "", "", none⟩, ⟨42⟩⟩

/-- C3 counterexample: the claim says the random node selection on an
empty session fails with `EmptySessionError`. The code defines no such
error: on an empty node list `Math.floor(Math.random()*100) % 0` is
`NaN` and `session.nodes[NaN]` is `undefined`, so `getRandomSessionNode`
returns no node without failing, and the enclosing `relay` call instead
fails with `NoServiceNodeError` (message string
relayer.ts:90). Shown here at a concrete empty session. -/
theorem empty_session_selection_counterexample :
    Relayer.getRandomSessionNode ⟨sampleHeader, []⟩ 0 = none ∧
    Relayer.relay "0021" "d" none "" none "" sampleAAT ⟨sampleHeader, []⟩
      (some (fun s => s)) 5 0 = .error .NoServiceNodeError ∧
    RelayError.NoServiceNodeError.message = "Couldn't find a service node." :=
  ⟨rfl, rfl, rfl⟩

/-- C3 amended: for every session whose node list is empty,
`getRandomSessionNode` returns no node (`undefined` in the source, with
no error raised by the selection itself), and a relay call without a
caller-supplied node then fails with `NoServiceNodeError`. -/
theorem getRandomSessionNode_empty_amended
    (hdr : SessionHeader) (draw : Nat) (bc data : String)
    (headers : Option RelayHeaders) (method path : String) (aat : PocketAAT)
    (sign : String → String) (ed nd : Nat) :
    Relayer.getRandomSessionNode ⟨hdr, []⟩ draw = none ∧
    Relayer.relay bc data headers method none path aat ⟨hdr, []⟩
      (some sign) ed nd = .error .NoServiceNodeError :=
  ⟨rfl, rfl⟩

/-- C4 counterexample: the claim says each of the N nodes is selected
with equal probability 1/N. The code selects index
`Math.floor(Math.random()*100) % N`, so over the uniform draw space
`[0, 100)` a session with 3 nodes sees index 0 on 34 of the 100 draws
but index 1 on only 33 — the selection is not uniform (1/3 of 100 is not
an integer). -/
theorem selection_nonuniform_counterexample :
    ((List.range 100).countP fun r =>
      decide (Relayer.getRandomSessionNode session3 r = some nodeA)) = 34 ∧
    ((List.range 100).countP fun r =>
      decide (Relayer.getRandomSessionNode session3 r = some nodeB)) = 33 := by
  decide

/-- C4 amended: for a session with a non-empty node list and the uniform
draw `d` over `[0, 100)` injected for `Math.floor(Math.random()*100)`,
the selection returns the node at index `d % N`; consequently every
index below `N` is reachable whenever `N ≤ 100`, but the node selection
frequencies over the 100 equiprobable draws are `⌈(100-i)/N⌉ / 100`
rather than `1/N` (uniform exactly when `N` divides 100). -/
theorem getRandomSessionNode_uniform_amended (s : Session) (draw : Nat)
    (hne : s.nodes ≠ []) (hdraw : draw < 100) :
    Relayer.getRandomSessionNode s draw = s.nodes[draw % s.nodes.length]? ∧
    draw % s.nodes.length < s.nodes.length ∧
    (s.nodes.length ≤ 100 → ∀ i < s.nodes.length, ∃ d, d < 100 ∧
      Relayer.getRandomSessionNode s d = s.nodes[i]?) := by
  have hlen : s.nodes.length ≠ 0 := by
    simpa [List.length_eq_zero] using hne
  refine ⟨by simp [Relayer.getRandomSessionNode, hlen],
    Nat.mod_lt _ (Nat.pos_of_ne_zero hlen), ?_⟩
  intro hle i hi
  exact ⟨i, lt_of_lt_of_le hi hle,
    by simp [Relayer.getRandomSessionNode, hlen, Nat.mod_eq_of_lt hi]⟩

theorem getRandomSessionNode_uniform_amended_witness :
    session3.nodes ≠ [] ∧ 7 < 100 ∧
    (Relayer.getRandomSessionNode session3 7 = session3.nodes[7 % session3.nodes.length]? ∧
     7 % session3.nodes.length < session3.nodes.length ∧
     (session3.nodes.length ≤ 100 → ∀ i < session3.nodes.length, ∃ d, d < 100 ∧
       Relayer.getRandomSessionNode session3 d = session3.nodes[i]?)) :=
  ⟨by decide, by decide,
   getRandomSessionNode_uniform_amended session3 7 (by decide) (by decide)⟩

/-- C5: a relay call with a caller-supplied node whose public key is not
among the public keys of `session.nodes` fails with
`NodeNotInSessionError`; since the model returns the dispatched request
as the success value, an error result means nothing was handed to the
transport collaborator. -/
theorem relay_node_not_in_session
    (bc data : String) (headers : Option RelayHeaders) (method path : String)
    (aat : PocketAAT) (session : Session) (sign : String → String)
    (ed nd : Nat) (n : Node)
    (h : n.publicKey ∉ session.nodes.map Node.publicKey) :
    Relayer.relay bc data headers method (some n) path aat session
      (some sign) ed nd = .error .NodeNotInSessionError := by
  have hb : Relayer.isNodeInSession session n = false := by
    rcases Bool.eq_false_or_eq_true (Relayer.isNodeInSession session n) with ht | hf
    · exact absurd ((isNodeInSession_iff session n).mp ht) h
    · exact hf
  simp [Relayer.relay, Relayer.resolveServiceNode, hb]

theorem relay_node_not_in_session_witness :
    nodeX.publicKey ∉ session3.nodes.map Node.publicKey ∧
    Relayer.relay "0021" "d" none "" (some nodeX) "" sampleAAT session3
      (some (fun s => s)) 7 3 = .error .NodeNotInSessionError :=
  ⟨by decide,
   relay_node_not_in_session "0021" "d" none "" "" sampleAAT session3
     (fun s => s) 7 3 nodeX (by decide)⟩

/-- C6: with no signer configured (`keyManager` absent), both the static
`relay` and the instance `relay` fail with `MissingSignerError` whatever
the other inputs are; in the source the check is the first statement of
both functions (relayer.ts:83-85 and 179-181), before any hashing, and
an error result in this model means nothing was dispatched. -/
theorem relay_missing_signer
    (bc data : String) (headers : Option RelayHeaders) (method path : String)
    (node : Option Node) (aat : PocketAAT) (session : Session)
    (ed nd : Nat) (dispatchers : List String) :
    Relayer.relay bc data headers method node path aat session none ed nd =
      .error .MissingSignerError ∧
    RelayerInstance.relay ⟨none, dispatchers⟩ bc data headers method node path
      aat session ed nd = .error .MissingSignerError :=
  ⟨rfl, rfl⟩

/-- C7: a relay call with no caller-supplied node and an empty session
node list fails with `NoServiceNodeError`, and (error result) nothing is
dispatched. -/
theorem relay_no_service_node
    (bc data : String) (headers : Option RelayHeaders) (method path : String)
    (aat : PocketAAT) (hdr : SessionHeader) (sign : String → String)
    (ed nd : Nat) :
    Relayer.relay bc data headers method none path aat ⟨hdr, []⟩
      (some sign) ed nd = .error .NoServiceNodeError :=
  rfl

/-- C8: `hashAAT` returns the canonical digest of the token object
`version`, `app_pub_key`, `client_pub_key`, `signature` with the
signature field replaced by the empty string, so any two AATs that agree
on the first three fields — in particular two AATs differing only in
their application signature — hash identically. -/
theorem hashAAT_ignores_signature (a1 a2 : PocketAAT)
    (hv : a1.version = a2.version)
    (ha : a1.applicationPublicKey = a2.applicationPublicKey)
    (hc : a1.clientPublicKey = a2.clientPublicKey) :
    Relayer.hashAAT a1 = Relayer.hashAAT a2 ∧
    Relayer.hashAAT a1 =
      sha3hex (stringifyToken a1.version a1.applicationPublicKey a1.clientPublicKey "") :=
  ⟨by simp [Relayer.hashAAT, hv, ha, hc], rfl⟩

theorem hashAAT_ignores_signature_witness :
    sampleAAT.version = sampleAAT2.version ∧
    sampleAAT.applicationPublicKey = sampleAAT2.applicationPublicKey ∧
    sampleAAT.clientPublicKey = sampleAAT2.clientPublicKey ∧
    sampleAAT.applicationSignature ≠ sampleAAT2.applicationSignature ∧
    (Relayer.hashAAT sampleAAT = Relayer.hashAAT sampleAAT2 ∧
     Relayer.hashAAT sampleAAT =
       sha3hex (stringifyToken sampleAAT.version sampleAAT.applicationPublicKey
         sampleAAT.clientPublicKey "")) :=
  ⟨rfl, rfl, rfl, by decide,
   hashAAT_ignores_signature sampleAAT sampleAAT2 rfl rfl rfl⟩

/-- C10: session membership is decided by public key alone
(`isNodeInSession` compares only `publicKey`), so a relay call with a
caller-supplied node whose public key matches some session node succeeds
and dispatches to the caller-supplied node service URL — even when that
URL differs from the one recorded in the session, as the witness
demonstrates with `nodeBAlt`. -/
theorem relay_membership_by_pubkey_only
    (bc data : String) (headers : Option RelayHeaders) (method path : String)
    (aat : PocketAAT) (session : Session) (sign : String → String)
    (ed nd : Nat) (n : Node)
    (h : n.publicKey ∈ session.nodes.map Node.publicKey) :
    ∃ req : RelayRequest,
      Relayer.relay bc data headers method (some n) path aat session
        (some sign) ed nd = .ok (req, n.serviceUrl) ∧
      req.proof.servicer_pub_key = n.publicKey := by
  have hmem : Relayer.isNodeInSession session n = true :=
    (isNodeInSession_iff session n).mpr h
  refine ⟨⟨⟨data, method, path, headers⟩, ⟨session.header.sessionBlockHeight⟩,
    ⟨ed, session.header.sessionBlockHeight, n.publicKey, bc,
     ⟨aat.version, aat.applicationPublicKey, aat.clientPublicKey, aat.applicationSignature⟩,
     sign (Relayer.generateProofBytes ed session.header.sessionBlockHeight n.publicKey bc aat
       ⟨⟨data, method, path, headers⟩, ⟨session.header.sessionBlockHeight⟩⟩),
     Relayer.hashRequest ⟨⟨data, method, path, headers⟩,
       ⟨session.header.sessionBlockHeight⟩⟩⟩⟩, ?_, rfl⟩
  simp [Relayer.relay, Relayer.resolveServiceNode, hmem]

theorem relay_membership_by_pubkey_only_witness :
    nodeBAlt.publicKey ∈ session3.nodes.map Node.publicKey ∧
    nodeBAlt.serviceUrl ≠ nodeB.serviceUrl ∧
    (∃ req : RelayRequest,
      Relayer.relay "0021" "d" none "" (some nodeBAlt) "" sampleAAT session3
        (some (fun s => s)) 7 3 = .ok (req, nodeBAlt.serviceUrl) ∧
      req.proof.servicer_pub_key = nodeBAlt.publicKey) :=
  ⟨by decide, by decide,
   relay_membership_by_pubkey_only "0021" "d" none "" "" sampleAAT session3
     (fun s => s) 7 3 nodeBAlt (by decide)⟩

end PocketJS

